import Mathlib

/-!
Verification of the `ModalDialog` React component (src/ModalDialog.tsx) as a
shallow embedding.  The component keeps a boolean `isOpen` state (controlled
prop or internal store) synchronized with a native HTML `<dialog>` element via
a `useEffect` reconciler, intercepts backdrop clicks and Escape keydown to
route dismissal through the state setter, and exposes a restricted imperative
facade (`close`, `showModal`, `isOpen`, `addEventListener`,
`removeEventListener`) through `useImperativeHandle`.

The embedding represents the native dialog element, the component's state, and
a trace of native primitive invocations, and runs the component's handlers and
effects as pure state-transformers.  Event sequences are lists of `Request`s
folded through `step`.
-/

namespace ModalDialog

/-- the native HTML dialog element collaborator: a boolean `open` status and a
set of registered listener names (we track listener names only; callbacks have
no bearing on the verified properties) -/
structure HTMLDialogElement where
  «open» : Bool
  listeners : List String

/-- the native modal-open primitive: per the platform contract it raises an
`InvalidStateError` when the element is already open, otherwise it presents the
element modally -/
def HTMLDialogElement.showModal (d : HTMLDialogElement) :
    Except String HTMLDialogElement :=
  if d.«open» then Except.error "InvalidStateError"
  else Except.ok { d with «open» := true }

/-- the native close primitive: idempotent; returns the closed element together
with whether the `close` event fires (it fires iff the element was open) -/
def HTMLDialogElement.close (d : HTMLDialogElement) : HTMLDialogElement × Bool :=
  ({ d with «open» := false }, d.«open»)

/-- native listener registration on the element -/
def HTMLDialogElement.addEventListener (d : HTMLDialogElement) (name : String) :
    HTMLDialogElement :=
  { d with listeners := name :: d.listeners }

/-- native listener removal on the element -/
def HTMLDialogElement.removeEventListener (d : HTMLDialogElement) (name : String) :
    HTMLDialogElement :=
  { d with listeners := d.listeners.erase name }

/-- record of which native primitives the component has invoked on the handle -/
inductive NativeCall where
  | showModalCall : NativeCall
  | closeCall : NativeCall

/-- the state of one mounted `ModalDialog` instance together with its native
handle and observable history:
- `openState` is the component's `isOpen` value (the controlled prop in
  controlled mode, the `uncontrolledOpen` store otherwise; both funnel through
  the same `setIsOpen` path);
- `dialog` is `dialogRef.current` (`none` models a null ref);
- `onCloseCount` counts invocations of the `onClose` prop, which the JSX wires
  to the element's native `close` event;
- `calls` is the trace of native primitive invocations, most recent first;
- `fault` records whether a native `InvalidStateError` was ever raised. -/
structure SysState where
  openState : Bool
  dialog : Option HTMLDialogElement
  onCloseCount : Nat
  calls : List NativeCall
  fault : Bool

/-- an invocation `dialog.showModal()` on the element `d` held by the handle:
records the call, updates the handle on success, and sets `fault` if the
native layer raises because the element is already open -/
def callShowModal (s : SysState) (d : HTMLDialogElement) : SysState :=
  match d.showModal with
  | Except.ok d' =>
      { s with dialog := some d', calls := NativeCall.showModalCall :: s.calls }
  | Except.error _ =>
      { s with calls := NativeCall.showModalCall :: s.calls, fault := true }

/-- an invocation `dialog?.close()`: optional chaining makes it a no-op on a
null handle; otherwise it records the call, closes the element, and fires the
native `close` event — invoking the `onClose` prop — iff the element was open -/
def callClose (s : SysState) : SysState :=
  match s.dialog with
  | none => s
  | some d =>
      { s with
        dialog := some (d.close).1
        calls := NativeCall.closeCall :: s.calls
        onCloseCount := s.onCloseCount + (if (d.close).2 then 1 else 0) }

/-- src `safelyOpenDialogAsModal` (lines 110-114): `if (dialog && !dialog.open)
\x7b dialog.showModal(); \x7d` — the null guard and the open-status pre-check
before the native call -/
def safelyOpenDialogAsModal (s : SysState) : SysState :=
  match s.dialog with
  | none => s
  | some d => if !d.«open» then callShowModal s d else s

/-- src sync `useEffect` body (lines 147-155): if `isOpen` then
`safelyOpenDialogAsModal(dialog)` else `dialog?.close()` -/
def syncEffect (s : SysState) : SysState :=
  if s.openState then safelyOpenDialogAsModal s else callClose s

/-- src sync `useEffect` cleanup (lines 156-159): `dialog?.close()` on unmount,
unconditionally -/
def unmountCleanup (s : SysState) : SysState :=
  callClose s

/-- a `setIsOpen b` request followed by the host re-running the sync effect:
the effect's dependency list is `[isOpen]`, so the reconciliation re-runs
exactly when the value changed -/
def setIsOpenThenSync (s : SysState) (b : Bool) : SysState :=
  if s.openState = b then { s with openState := b }
  else syncEffect { s with openState := b }

/-- a DOM event target as the component's handlers can observe it, plus the
model-level ground truth `isDialogItself` (whether the target is the
component's own rendered dialog element), which the code cannot observe -/
structure EventTarget where
  isElement : Bool
  nodeName : String
  isDialogItself : Bool

/-- the component's own rendered `<dialog>` element as an event target: it is
an Element whose node name is "DIALOG" -/
def dialogTarget : EventTarget :=
  { isElement := true, nodeName := "DIALOG", isDialogItself := true }

/-- a descendant element that happens to be a nested `<dialog>`: an Element
whose node name is also "DIALOG" but which is not the component's own element -/
def descendantDialogTarget : EventTarget :=
  { isElement := true, nodeName := "DIALOG", isDialogItself := false }

/-- a DOM event with the mutable flags touched by `preventDefault` /
`stopPropagation` -/
structure DomEvent where
  target : EventTarget
  code : String
  defaultPrevented : Bool
  propagationStopped : Bool

/-- src `handleClose` (lines 169-173): `event.preventDefault();
event.stopPropagation(); setIsOpen(false);` — the state change then triggers
the sync effect -/
def handleClose (event : DomEvent) (s : SysState) : DomEvent × SysState :=
  ({ event with defaultPrevented := true, propagationStopped := true },
   setIsOpenThenSync s false)

/-- the condition tested by src `lightDismiss` (lines 176-181):
`target instanceof Element && target.nodeName === "DIALOG"` -/
def lightDismissTriggers (t : EventTarget) : Bool :=
  t.isElement && (t.nodeName == "DIALOG")

/-- the condition tested by src `closeOnEscape` (lines 183-187):
`event.code === "Escape"` -/
def closeOnEscapeTriggers (code : String) : Bool :=
  code == "Escape"

/-- the listener names the listener `useEffect` (lines 189-193) installs on
the dialog: `click` only when `shouldLightDismiss`, `keydown` always -/
def installedListeners (shouldLightDismiss : Bool) : List String :=
  (if shouldLightDismiss then ["click"] else []) ++ ["keydown"]

/-- dispatch of a click event reaching the dialog subtree: the `lightDismiss`
listener runs only when it was attached (`shouldLightDismiss`, src lines
189-191), and dismisses iff the target test passes; clicks have no native
default affecting the dialog -/
def dispatchClick (shouldLightDismiss : Bool) (t : EventTarget) (s : SysState) :
    SysState :=
  if shouldLightDismiss then
    if lightDismissTriggers t then
      (handleClose { target := t, code := "", defaultPrevented := false,
                     propagationStopped := false } s).2
    else s
  else s

/-- the native cancel default action for Escape on a dialog: the element
closes itself — firing its `close` event — without consulting `openState`;
it runs only when the keydown event's default was not prevented -/
def nativeCancelDefault (s : SysState) : SysState :=
  match s.dialog with
  | none => s
  | some d =>
      { s with
        dialog := some (d.close).1
        onCloseCount := s.onCloseCount + (if (d.close).2 then 1 else 0) }

/-- dispatch of a keydown event on the dialog: the `closeOnEscape` listener is
always attached (src line 193); afterwards the platform runs the cancel
default action unless the handler prevented it -/
def dispatchKeydown (t : EventTarget) (code : String) (s : SysState) : SysState :=
  if closeOnEscapeTriggers code then
    let p := handleClose { target := t, code := code, defaultPrevented := false,
                           propagationStopped := false } s
    if !p.1.defaultPrevented then nativeCancelDefault p.2 else p.2
  else s

/-- src `useImperativeHandle` `close()` (lines 206-208): the handler body only
requests `setIsOpen(false)`; it performs no native invocation itself -/
def facadeCloseHandler (s : SysState) : SysState :=
  { s with openState := false }

/-- src `useImperativeHandle` `showModal()` (lines 209-211): the handler body
only requests `setIsOpen(true)`; it performs no native invocation itself -/
def facadeShowModalHandler (s : SysState) : SysState :=
  { s with openState := true }

/-- the facade `close()` request together with the reconciliation that the
state change triggers -/
def facadeClose (s : SysState) : SysState :=
  setIsOpenThenSync s false

/-- the facade `showModal()` request together with the reconciliation that the
state change triggers -/
def facadeShowModal (s : SysState) : SysState :=
  setIsOpenThenSync s true

/-- src line 142: `const isOpen = controlledOpen ?? uncontrolledOpen` -/
def derivedIsOpen (controlledOpen : Option Bool) (uncontrolledOpen : Bool) :
    Bool :=
  controlledOpen.getD uncontrolledOpen

/-- src `useImperativeHandle` `isOpen()` (lines 212-214): returns the `isOpen`
snapshot derived from the props/store; the native handle (third argument) is
not consulted -/
def facadeIsOpen (controlledOpen : Option Bool) (uncontrolledOpen : Bool)
    (_dialog : Option HTMLDialogElement) : Bool :=
  derivedIsOpen controlledOpen uncontrolledOpen

/-- src `useImperativeHandle` `addEventListener` (lines 215-221):
`dialogRef.current?.addEventListener(...)` — optional chaining on the handle -/
def facadeAddEventListener (dialog : Option HTMLDialogElement) (name : String) :
    Option HTMLDialogElement :=
  match dialog with
  | none => none
  | some d => some (d.addEventListener name)

/-- src `useImperativeHandle` `removeEventListener` (lines 222-228):
`dialogRef.current?.removeEventListener(...)` — optional chaining on the
handle -/
def facadeRemoveEventListener (dialog : Option HTMLDialogElement)
    (name : String) : Option HTMLDialogElement :=
  match dialog with
  | none => none
  | some d => some (d.removeEventListener name)

/-- an open/close request arriving at a mounted instance: an ancestor state
change (controlled mode) or facade `showModal()`/`close()` call (uncontrolled
mode) — both funnel through the same `setIsOpen` path — or a dismissal
gesture (click / keydown) -/
inductive Request where
  | requestOpen : Request
  | requestClose : Request
  | click : EventTarget → Request
  | keydown : EventTarget → String → Request

/-- one request processed to quiescence, including the reconciliation effect
the request triggers -/
def step (shouldLightDismiss : Bool) (s : SysState) (r : Request) : SysState :=
  match r with
  | Request.requestOpen => setIsOpenThenSync s true
  | Request.requestClose => setIsOpenThenSync s false
  | Request.click t => dispatchClick shouldLightDismiss t s
  | Request.keydown t code => dispatchKeydown t code s

/-- mounting the component: the ref is attached to a fresh, closed native
dialog element; `openState` starts from `initialOpen` (or the initial
controlled prop value), and the sync effect runs its first pass -/
def mount (initialOpen : Bool) : SysState :=
  syncEffect
    { openState := initialOpen
      dialog := some { «open» := false, listeners := [] }
      onCloseCount := 0
      calls := []
      fault := false }

/-- a whole session: mount, then fold a request sequence through `step` -/
def run (shouldLightDismiss initialOpen : Bool) (rs : List Request) : SysState :=
  rs.foldl (step shouldLightDismiss) (mount initialOpen)

/-- the central invariant's observable: the native element's open status
agrees with `openState` whenever the handle is present -/
def inSync (s : SysState) : Bool :=
  match s.dialog with
  | none => true
  | some d => d.«open» == s.openState

/-- the inductive invariant: in sync and no native fault ever raised -/
def good (s : SysState) : Prop :=
  inSync s = true ∧ s.fault = false

theorem syncEffect_good (s : SysState) (h : s.fault = false) :
    good (syncEffect s) := by
  obtain ⟨os, dlg, cnt, cs, fl⟩ := s
  have hfl : fl = false := h
  subst hfl
  cases os <;> rcases dlg with _ | ⟨dopen, ls⟩
  · exact ⟨rfl, rfl⟩
  · exact ⟨rfl, rfl⟩
  · exact ⟨rfl, rfl⟩
  · cases dopen
    · exact ⟨rfl, rfl⟩
    · exact ⟨rfl, rfl⟩

theorem setIsOpenThenSync_good (s : SysState) (b : Bool) (h : good s) :
    good (setIsOpenThenSync s b) := by
  unfold setIsOpenThenSync
  by_cases hob : s.openState = b
  · subst hob
    simp only [if_pos rfl]
    exact h
  · rw [if_neg hob]
    exact syncEffect_good _ h.2

theorem dispatchClick_good (flag : Bool) (t : EventTarget) (s : SysState)
    (h : good s) : good (dispatchClick flag t s) := by
  cases flag
  · exact h
  · unfold dispatchClick
    by_cases ht : lightDismissTriggers t = true
    · rw [if_pos rfl, if_pos ht]
      exact setIsOpenThenSync_good s false h
    · rw [if_pos rfl, if_neg ht]
      exact h

theorem dispatchKeydown_good (t : EventTarget) (code : String) (s : SysState)
    (h : good s) : good (dispatchKeydown t code s) := by
  unfold dispatchKeydown
  by_cases hc : closeOnEscapeTriggers code = true
  · rw [if_pos hc]
    exact setIsOpenThenSync_good s false h
  · rw [if_neg hc]
    exact h

theorem step_good (flag : Bool) (s : SysState) (r : Request) (h : good s) :
    good (step flag s r) := by
  cases r with
  | requestOpen => exact setIsOpenThenSync_good s true h
  | requestClose => exact setIsOpenThenSync_good s false h
  | click t => exact dispatchClick_good flag t s h
  | keydown t code => exact dispatchKeydown_good t code s h

theorem mount_good (initialOpen : Bool) : good (mount initialOpen) :=
  syncEffect_good _ rfl

theorem foldl_good (flag : Bool) (rs : List Request) :
    ∀ s : SysState, good s → good (rs.foldl (step flag) s) := by
  induction rs with
  | nil => intro s h; exact h
  | cons r rs ih => intro s h; exact ih (step flag s r) (step_good flag s r h)

theorem run_good (flag initialOpen : Bool) (rs : List Request) :
    good (run flag initialOpen rs) :=
  foldl_good flag rs (mount initialOpen) (mount_good initialOpen)

/-- C1: for every sequence of open/close requests (ancestor state changes,
facade showModal()/close() calls, and dismissal gestures), after the
reconciliation effect for each request settles, the component's OpenState
boolean and the native dialog element's open status are equal. -/
theorem c1_openState_matches_native (flag initialOpen : Bool)
    (rs : List Request) : inSync (run flag initialOpen rs) = true :=
  (run_good flag initialOpen rs).1

/-- C2: requesting open when the native dialog is already open never invokes
the native showModal primitive again — `safelyOpenDialogAsModal` checks the
native open status first and leaves the state untouched — and consequently the
native "already open" error branch is unreachable: no reachable state ever has
the fault flag set. -/
theorem c2_no_redundant_native_open :
    (∀ (s : SysState) (d : HTMLDialogElement),
        s.dialog = some d → d.«open» = true → safelyOpenDialogAsModal s = s)
  ∧ (∀ (flag initialOpen : Bool) (rs : List Request),
        (run flag initialOpen rs).fault = false) := by
  constructor
  · intro s d hd ho
    obtain ⟨os, dlg, cnt, cs, fl⟩ := s
    have hd' : dlg = some d := hd
    subst hd'
    obtain ⟨dopen, ls⟩ := d
    have ho' : dopen = true := ho
    subst ho'
    rfl
  · intro flag initialOpen rs
    exact (run_good flag initialOpen rs).2

/-- witness for C2 at a concrete state: the dialog freshly mounted open is
already open, and a redundant safe-open request leaves it untouched; a
concrete run raises no fault. -/
theorem c2_no_redundant_native_open_witness :
    safelyOpenDialogAsModal (mount true) = mount true
  ∧ (run true true [Request.requestOpen]).fault = false :=
  ⟨c2_no_redundant_native_open.1 (mount true)
      { «open» := true, listeners := [] } rfl rfl,
   c2_no_redundant_native_open.2 true true [Request.requestOpen]⟩

/-- C3: with shouldLightDismiss = true (the default) and the dialog open, a
click whose target is the dialog element itself transitions OpenState to false
and invokes the onClose callback (via the native close event). -/
theorem c3_light_dismiss_closes (s : SysState) (d : HTMLDialogElement)
    (hd : s.dialog = some d) (ho : d.«open» = true) (hs : s.openState = true) :
    (dispatchClick true dialogTarget s).openState = false
  ∧ (dispatchClick true dialogTarget s).onCloseCount = s.onCloseCount + 1 := by
  obtain ⟨os, dlg, cnt, cs, fl⟩ := s
  have hd' : dlg = some d := hd
  subst hd'
  obtain ⟨dopen, ls⟩ := d
  have ho' : dopen = true := ho
  subst ho'
  have hs' : os = true := hs
  subst hs'
  exact ⟨rfl, rfl⟩

/-- witness for C3: freshly mounted open, a backdrop click closes the dialog
and fires onClose once. -/
theorem c3_light_dismiss_closes_witness :
    (dispatchClick true dialogTarget (mount true)).openState = false
  ∧ (dispatchClick true dialogTarget (mount true)).onCloseCount
      = (mount true).onCloseCount + 1 :=
  c3_light_dismiss_closes (mount true) { «open» := true, listeners := [] }
    rfl rfl rfl

/-- C4: with shouldLightDismiss = false the click listener is never attached,
so any click — in particular one whose target is the dialog element itself —
leaves the whole state (OpenState and native open status included) unchanged. -/
theorem c4_click_inert_without_light_dismiss (t : EventTarget) (s : SysState) :
    (installedListeners false).contains "click" = false
  ∧ dispatchClick false t s = s :=
  ⟨by decide, rfl⟩

/-- C5 counterexample: the claim "a click on any descendant element never
triggers dismissal" is false as stated — the detection is by node name, so a
click on a descendant that is itself a (nested) dialog element, which is not
the component's own dialog element, does trigger dismissal. -/
theorem c5_descendant_dialog_counterexample :
    descendantDialogTarget.isDialogItself = false
  ∧ (mount true).openState = true
  ∧ (dispatchClick true descendantDialogTarget (mount true)).openState = false
  ∧ (dispatchClick true descendantDialogTarget (mount true)).onCloseCount
      = (mount true).onCloseCount + 1 :=
  ⟨rfl, rfl, rfl, rfl⟩

/-- C5 (amended): a click whose target is a descendant element whose node name
is not "DIALOG" never triggers dismissal and leaves the state unchanged, for
both values of shouldLightDismiss; the code discriminates by node name, so a
descendant named "DIALOG" is the sole exception. -/
theorem c5_descendant_click_inert (flag : Bool) (t : EventTarget)
    (s : SysState) (hne : t.nodeName ≠ "DIALOG") :
    dispatchClick flag t s = s := by
  have h2 : (t.nodeName == "DIALOG") = false := beq_eq_false_iff_ne.mpr hne
  unfold dispatchClick lightDismissTriggers
  rw [h2]
  simp

/-- witness for C5 (amended): a click on a child BUTTON element is inert. -/
theorem c5_descendant_click_inert_witness :
    dispatchClick true
      { isElement := true, nodeName := "BUTTON", isDialogItself := false }
      (mount true) = mount true :=
  c5_descendant_click_inert true _ (mount true) (by decide)

/-- C6: the Escape keydown listener is installed for every configuration, and
an Escape keydown while the dialog is open transitions OpenState to false and
invokes onClose, for both values of shouldLightDismiss (the step relation
routes keydown identically for either flag). -/
theorem c6_escape_always_closes (flag : Bool) (t : EventTarget) (s : SysState)
    (d : HTMLDialogElement) (hd : s.dialog = some d) (ho : d.«open» = true)
    (hs : s.openState = true) :
    (installedListeners flag).contains "keydown" = true
  ∧ step flag s (Request.keydown t "Escape") = dispatchKeydown t "Escape" s
  ∧ (dispatchKeydown t "Escape" s).openState = false
  ∧ (dispatchKeydown t "Escape" s).onCloseCount = s.onCloseCount + 1 := by
  obtain ⟨os, dlg, cnt, cs, fl⟩ := s
  have hd' : dlg = some d := hd
  subst hd'
  obtain ⟨dopen, ls⟩ := d
  have ho' : dopen = true := ho
  subst ho'
  have hs' : os = true := hs
  subst hs'
  refine ⟨?_, rfl, rfl, rfl⟩
  cases flag <;> decide

/-- witness for C6: freshly mounted open with light dismiss disabled, Escape
still closes the dialog and fires onClose once. -/
theorem c6_escape_always_closes_witness :
    (installedListeners false).contains "keydown" = true
  ∧ step false (mount true) (Request.keydown dialogTarget "Escape")
      = dispatchKeydown dialogTarget "Escape" (mount true)
  ∧ (dispatchKeydown dialogTarget "Escape" (mount true)).openState = false
  ∧ (dispatchKeydown dialogTarget "Escape" (mount true)).onCloseCount
      = (mount true).onCloseCount + 1 :=
  c6_escape_always_closes false dialogTarget (mount true)
    { «open» := true, listeners := [] } rfl rfl rfl

/-- C7: the facade showModal() handler performs no native invocation and
touches no handle — it only requests OpenState := true — and the
reconciliation it triggers performs at most one native modal-open call,
and none at all when the native element is already open. -/
theorem c7_facade_showModal_requests_open (s : SysState) :
    (facadeShowModalHandler s).calls = s.calls
  ∧ (facadeShowModalHandler s).dialog = s.dialog
  ∧ (facadeShowModalHandler s).openState = true
  ∧ ((facadeShowModal s).calls = NativeCall.showModalCall :: s.calls
      ∨ (facadeShowModal s).calls = s.calls)
  ∧ (∀ d : HTMLDialogElement, s.dialog = some d → d.«open» = true →
      (facadeShowModal s).calls = s.calls) := by
  obtain ⟨os, dlg, cnt, cs, fl⟩ := s
  refine ⟨rfl, rfl, rfl, ?_, ?_⟩
  · cases os with
    | false =>
        rcases dlg with _ | ⟨dopen, ls⟩
        · exact Or.inr rfl
        · cases dopen
          · exact Or.inl rfl
          · exact Or.inr rfl
    | true => exact Or.inr rfl
  · intro d hd ho
    rcases dlg with _ | ⟨dopen, ls⟩
    · exact Option.noConfusion hd
    · obtain rfl : ({ «open» := dopen, listeners := ls } : HTMLDialogElement)
          = d := Option.some.inj hd
      have ho' : dopen = true := ho
      subst ho'
      cases os
      · rfl
      · rfl

/-- witness for C7 at a concrete already-open state: the facade request issues
no native call. -/
theorem c7_facade_showModal_requests_open_witness :
    (facadeShowModal (mount true)).calls = (mount true).calls :=
  (c7_facade_showModal_requests_open (mount true)).2.2.2.2
    { «open» := true, listeners := [] } rfl rfl

/-- C8: the facade isOpen() query returns the OpenState snapshot derived from
the controlled prop (when present) or the internal store, and is independent
of the native dialog element's open status. -/
theorem c8_facade_isOpen_returns_openState (controlledOpen : Option Bool)
    (uncontrolledOpen : Bool) (d d' : Option HTMLDialogElement) :
    facadeIsOpen controlledOpen uncontrolledOpen d
      = derivedIsOpen controlledOpen uncontrolledOpen
  ∧ facadeIsOpen controlledOpen uncontrolledOpen d
      = facadeIsOpen controlledOpen uncontrolledOpen d'
  ∧ (∀ b : Bool, facadeIsOpen (some b) uncontrolledOpen d = b)
  ∧ facadeIsOpen none uncontrolledOpen d = uncontrolledOpen :=
  ⟨rfl, rfl, fun _ => rfl, rfl⟩

/-- C9: on unmount the cleanup invokes the native close primitive on the
handle regardless of the current OpenState value — also when OpenState is
still true — leaving the native element closed. -/
theorem c9_unmount_forces_native_close (s : SysState) (d : HTMLDialogElement)
    (hd : s.dialog = some d) :
    (unmountCleanup s).calls = NativeCall.closeCall :: s.calls
  ∧ (unmountCleanup s).dialog = some { d with «open» := false } := by
  obtain ⟨os, dlg, cnt, cs, fl⟩ := s
  have hd' : dlg = some d := hd
  subst hd'
  exact ⟨rfl, rfl⟩

/-- witness for C9: unmounting the freshly mounted open dialog — OpenState
never set to false — still records a native close and closes the element. -/
theorem c9_unmount_forces_native_close_witness :
    (unmountCleanup (mount true)).calls
      = NativeCall.closeCall :: (mount true).calls
  ∧ (unmountCleanup (mount true)).dialog
      = some { «open» := false, listeners := [] } :=
  c9_unmount_forces_native_close (mount true)
    { «open» := true, listeners := [] } rfl

/-- C10: every facade operation and reconciliation step is total on an absent
(null) native handle: the sync effect, the unmount cleanup, and the facade
close/showModal/addEventListener/removeEventListener all degrade to no-ops via
the null guards and optional chaining, for every input. -/
theorem c10_null_handle_noop (s : SysState) (name : String)
    (hd : s.dialog = none) :
    syncEffect s = s
  ∧ unmountCleanup s = s
  ∧ facadeAddEventListener none name = none
  ∧ facadeRemoveEventListener none name = none
  ∧ (facadeCloseHandler s).dialog = none
  ∧ (facadeCloseHandler s).calls = s.calls
  ∧ (facadeShowModalHandler s).dialog = none
  ∧ (facadeShowModalHandler s).calls = s.calls := by
  obtain ⟨os, dlg, cnt, cs, fl⟩ := s
  have hd' : dlg = none := hd
  subst hd'
  refine ⟨?_, rfl, rfl, rfl, rfl, rfl, rfl, rfl⟩
  cases os
  · rfl
  · rfl

/-- witness for C10 at a concrete null-handle state. -/
theorem c10_null_handle_noop_witness :
    syncEffect { openState := true, dialog := none, onCloseCount := 0,
                 calls := [], fault := false }
      = { openState := true, dialog := none, onCloseCount := 0,
          calls := [], fault := false }
  ∧ facadeAddEventListener none "close" = none :=
  ⟨(c10_null_handle_noop _ "close" rfl).1,
   (c10_null_handle_noop
      { openState := true, dialog := none, onCloseCount := 0,
        calls := [], fault := false } "close" rfl).2.2.1⟩

end ModalDialog
